import Mathlib

/-
Verification of the payout orchestration core of this repository
(crates/router/src/core/payouts.rs) via a shallow embedding.

The embedding mirrors the source functions of payouts.rs. External
collaborators (storage, connector adapters, locker, scheduler) are modelled
as explicit data: the storage layer is a pair of persisted records
(dbPayout, dbAttempt) threaded through a World value together with an event
trace; a connector adapter is a record of capability predicates and of the
response each of its payout operations would return; asynchronous `await`
points are irrelevant to the properties proved and are elided (each pass is
a single logical sequence, per the concurrency model of the code).

Helper functions that live in modules of this repository not present under
src (payouts/helpers.rs, payouts/validator.rs, diesel_models) are modelled
from the spec and carry a doc comment saying so.
-/

namespace Hyperswitch


/-- Payout status enum (storage_enums::PayoutStatus), restricted to the
variants that occur in payouts.rs. -/
inductive PayoutStatus
  | success
  | failed
  | cancelled
  | pending
  | ineligible
  | requiresCreation
  | requiresConfirmation
  | requiresPayoutMethodData
  | requiresVendorAccountCreation
  | requiresFulfillment
  deriving DecidableEq, Repr

/-- Payout type enum (bank / card / wallet). -/
inductive PayoutType
  | bank
  | card
  | wallet
  deriving DecidableEq, Repr

/-- Payout method data (banking / card / wallet details); the concrete
fields are irrelevant to the orchestration logic and are collapsed into one
string. -/
inductive PayoutMethodData
  | bank (details : String)
  | card (details : String)
  | wallet (details : String)
  deriving DecidableEq, Repr

/-- The Payouts record (storage::Payouts), restricted to the fields read or
written by payouts.rs. -/
structure Payouts where
  payoutId : String
  status : PayoutStatus
  amount : Nat
  sourceCurrency : String
  destinationCurrency : String
  payoutType : Option PayoutType
  autoFulfill : Bool
  recurring : Bool
  confirm : Option Bool
  payoutMethodId : Option String
  attemptCount : Nat
  deriving DecidableEq, Repr

/-- The PayoutAttempt record (storage::PayoutAttempt), restricted to the
fields read or written by payouts.rs. -/
structure PayoutAttempt where
  payoutAttemptId : String
  payoutId : String
  status : PayoutStatus
  connector : Option String
  connectorPayoutId : String
  errorCode : Option String
  errorMessage : Option String
  isEligible : Option Bool
  payoutToken : Option String
  profileId : String
  deriving DecidableEq, Repr

/-- The in-memory orchestration aggregate (struct PayoutData of payouts.rs),
restricted to the fields the orchestration logic consults. Billing address,
business profile, customer details and merchant connector account are
collaborator data that the control flow never branches on. -/
structure PayoutData where
  payouts : Payouts
  payoutAttempt : PayoutAttempt
  payoutMethodData : Option PayoutMethodData
  shouldTerminate : Bool
  deriving DecidableEq, Repr

/-- Identifier of the connector operation invoked by a sub-flow. -/
inductive ConnectorFlow
  | eligibility
  | recipient
  | disburseAccount
  | create
  | fulfill
  | cancel
  | quote
  | sync
  deriving DecidableEq, Repr

/-- Observable effects of one orchestration pass: connector invocations and
storage writes, in order. `writeAttempt` carries the persisted record
resulting from an update_payout_attempt call; `writePayout` carries the
status written by an update_payout call. -/
inductive Event
  | connectorCall (flow : ConnectorFlow)
  | writeAttempt (a : PayoutAttempt)
  | writePayout (status : PayoutStatus)
  | insertPayout (status : PayoutStatus)
  | insertAttempt (status : PayoutStatus)
  | insertProcessTracker
  | updateRecords
  deriving DecidableEq, Repr

/-- Error classification of errors::ApiErrorResponse, restricted to the
variants produced by the embedded functions. -/
inductive ApiError
  | internalServerError
  | payoutFailed
  | invalidRequest
  | missingRequiredField (field : String)
  deriving DecidableEq, Repr

/-- Connector-level error response (code and message), as carried by
Err(ErrorResponse) inside router_data.response. -/
structure ErrorResponse where
  code : String
  message : String
  deriving DecidableEq, Repr

/-- PayoutsResponseData returned by a successful connector operation. -/
structure PayoutsResponseData where
  status : Option PayoutStatus
  connectorPayoutId : String
  payoutEligible : Option Bool
  shouldAddNextStepToProcessTracker : Bool
  errorCode : Option String
  errorMessage : Option String
  deriving DecidableEq, Repr

/-- A connector adapter: its name, capability predicates
(supports_* methods of the connector enum) and the response each payout
operation returns when invoked. One pass invokes each operation at most
once, so a fixed response per operation is faithful. -/
structure Connector where
  connectorName : String
  supportsPayoutEligibility : Option PayoutType → Bool
  supportsCreateRecipient : Option PayoutType → Bool
  supportsVendorDisburseAccountCreateForPayout : Bool
  supportsInstantPayout : Option PayoutType → Bool
  isPayoutQuoteCallRequired : Bool
  eligibilityResponse : Except ErrorResponse PayoutsResponseData
  recipientResponse : Except ErrorResponse PayoutsResponseData
  disburseResponse : Except ErrorResponse PayoutsResponseData
  createResponse : Except ErrorResponse PayoutsResponseData
  fulfillResponse : Except ErrorResponse PayoutsResponseData
  cancelResponse : Except ErrorResponse PayoutsResponseData
  syncResponse : Except ErrorResponse PayoutsResponseData

/-- Ambient configuration of a pass. `payoutEligibility` is
state.conf.payouts.payout_eligibility. `shouldCallRecipientCreateCustomer`
is modelled from the spec: helpers::should_call_payout_connector_create_customer
(not under src) decides whether the connector-side recipient still has to be
created for this customer and connector label. `lockerMethodData` is
modelled from the spec: helpers::make_payout_method_data (not under src)
resolves payout method data from the token / temp locker when none is
supplied inline. -/
structure Env where
  payoutEligibility : Bool
  shouldCallRecipientCreateCustomer : Bool
  lockerMethodData : Option PayoutMethodData

/-- Modelled from the spec: helpers::is_payout_err_state (payouts/helpers.rs,
not under src). The spec classifies the error-state set as the terminal
statuses other than Success: Failed / Ineligible / Cancelled. -/
def is_payout_err_state (s : PayoutStatus) : Bool :=
  match s with
  | PayoutStatus.failed => true
  | PayoutStatus.cancelled => true
  | PayoutStatus.ineligible => true
  | _ => false

/-- Modelled from the spec: helpers::is_payout_terminal_state
(payouts/helpers.rs, not under src). The spec's state table marks
Success / Failed / Cancelled / Ineligible as terminal. -/
def is_payout_terminal_state (s : PayoutStatus) : Bool :=
  match s with
  | PayoutStatus.success => true
  | PayoutStatus.failed => true
  | PayoutStatus.cancelled => true
  | PayoutStatus.ineligible => true
  | _ => false

/-- Modelled from the spec: helpers::is_eligible_for_local_payout_cancellation
(payouts/helpers.rs, not under src). The spec names the pre-connector-call
states RequiresCreation / RequiresConfirmation / RequiresPayoutMethodData. -/
def is_eligible_for_local_payout_cancellation (s : PayoutStatus) : Bool :=
  match s with
  | PayoutStatus.requiresCreation => true
  | PayoutStatus.requiresConfirmation => true
  | PayoutStatus.requiresPayoutMethodData => true
  | _ => false

/-- Modelled from the spec: helpers::is_payout_initiated (payouts/helpers.rs,
not under src): a payout already handed to the connector and awaiting its
outcome (Pending) cannot be updated. -/
def is_payout_initiated (s : PayoutStatus) : Bool :=
  match s with
  | PayoutStatus.pending => true
  | _ => false

/-- The creation-eligible states, as matched by complete_create_recipient
(payouts.rs lines 1060-1066) and complete_create_payout (lines 1385-1391). -/
def isCreationEligible (s : PayoutStatus) : Bool :=
  match s with
  | PayoutStatus.requiresCreation => true
  | PayoutStatus.requiresConfirmation => true
  | PayoutStatus.requiresPayoutMethodData => true
  | _ => false

/-- Payload of storage::PayoutAttemptUpdate::StatusUpdate. -/
structure PayoutAttemptStatusUpdate where
  connectorPayoutId : String
  status : PayoutStatus
  errorCode : Option String
  errorMessage : Option String
  isEligible : Option Bool
  deriving DecidableEq, Repr

/-- Modelled from the spec: applying PayoutAttemptUpdate::StatusUpdate to a
stored attempt (diesel_models, not under src) sets the status,
connector-payout-id, error fields and eligibility flag; per the spec the
error fields are cleared of error state on success (the update's None values
overwrite). -/
def PayoutAttempt.applyStatusUpdate (a : PayoutAttempt)
    (u : PayoutAttemptStatusUpdate) : PayoutAttempt :=
  { a with
    connectorPayoutId := u.connectorPayoutId
    status := u.status
    errorCode := u.errorCode
    errorMessage := u.errorMessage
    isEligible := u.isEligible }

/-- The state threaded through a pass: the in-memory aggregate, the two
persisted records, and the trace of observable events so far. The source
assigns every update_payout_attempt / update_payout result back into the
aggregate, so a write re-synchronises memory with storage; mutations of the
aggregate alone (e.g. the sync-failure branch of
update_retrieve_payout_tracker) leave dbPayout / dbAttempt untouched. -/
structure World where
  pd : PayoutData
  dbPayout : Payouts
  dbAttempt : PayoutAttempt
  events : List Event
  deriving DecidableEq, Repr

/-- A pass starts from an aggregate freshly loaded from storage
(make_payout_data / payout_create_db_entries), so memory and storage agree
and no events have occurred. -/
def World.init (pd : PayoutData) : World :=
  { pd := pd, dbPayout := pd.payouts, dbAttempt := pd.payoutAttempt, events := [] }

/-- db.update_payout_attempt followed by assigning the result into
payout_data.payout_attempt. -/
def World.updatePayoutAttempt (w : World) (u : PayoutAttemptStatusUpdate) : World :=
  let a := w.dbAttempt.applyStatusUpdate u
  { w with
    dbAttempt := a
    pd := { w.pd with payoutAttempt := a }
    events := w.events ++ [Event.writeAttempt a] }

/-- db.update_payout with PayoutsUpdate::StatusUpdate followed by assigning
the result into payout_data.payouts. -/
def World.updatePayoutStatus (w : World) (s : PayoutStatus) : World :=
  let p := { w.dbPayout with status := s }
  { w with
    dbPayout := p
    pd := { w.pd with payouts := p }
    events := w.events ++ [Event.writePayout s] }

/-- db.update_payout_attempt with PayoutAttemptUpdate::UpdateRouting
(payouts.rs lines 960-979): records the chosen connector on the attempt. -/
def World.updateAttemptRouting (w : World) (connector : String) : World :=
  let a := { w.dbAttempt with connector := some connector }
  { w with
    dbAttempt := a
    pd := { w.pd with payoutAttempt := a }
    events := w.events ++ [Event.writeAttempt a] }

/-- Record a connector invocation (services::execute_connector_processing_step). -/
def World.logCall (w : World) (f : ConnectorFlow) : World :=
  { w with events := w.events ++ [Event.connectorCall f] }

/-- Outcome of one sub-flow: the error propagated by the function (None for
Ok(())) and the resulting state. -/
structure StepOut where
  err : Option ApiError
  w : World
  deriving DecidableEq, Repr

/-- Sequencing mirroring the source's question-mark operator: once a sub-flow
has returned an error, the remaining sub-flows do not run. -/
def StepOut.thenRun (s : StepOut) (f : World → StepOut) : StepOut :=
  match s.err with
  | some _ => s
  | none => f s.w

/-- check_payout_eligibility (payouts.rs lines 1265-1376): invoke the
connector eligibility operation; on a successful response persist the
connector-provided status (falling back to the current attempt status) and
the eligibility flag to the attempt and then to the payout, surfacing
PayoutFailed when the resulting status is error-classified; on an error
response persist status Failed with the connector's error code and message
(is_eligible = false) to both records and return Ok. -/
def check_payout_eligibility (conn : Connector) (w : World) : StepOut :=
  let w := w.logCall ConnectorFlow.eligibility
  match conn.eligibilityResponse with
  | Except.ok resp =>
      let status := resp.status.getD w.pd.payoutAttempt.status
      let w := w.updatePayoutAttempt
        { connectorPayoutId := resp.connectorPayoutId
          status := status
          errorCode := none
          errorMessage := none
          isEligible := resp.payoutEligible }
      let w := w.updatePayoutStatus status
      if is_payout_err_state status then
        { err := some ApiError.payoutFailed, w := w }
      else
        { err := none, w := w }
  | Except.error e =>
      let w := w.updatePayoutAttempt
        { connectorPayoutId := w.pd.payoutAttempt.connectorPayoutId
          status := PayoutStatus.failed
          errorCode := some e.code
          errorMessage := some e.message
          isEligible := some false }
      let w := w.updatePayoutStatus PayoutStatus.failed
      { err := none, w := w }

/-- complete_payout_eligibility (payouts.rs lines 1222-1263): take a
snapshot of the attempt on entry; run check_payout_eligibility only when the
pass is not terminated, the snapshot's is_eligible is unset and the
connector supports eligibility for this payout type; then fail with
PayoutFailed when the snapshot's is_eligible (not the freshly persisted
value), defaulted to the configured payout_eligibility, is false. -/
def complete_payout_eligibility (conn : Connector) (env : Env) (w : World) : StepOut :=
  let payout_attempt := w.pd.payoutAttempt
  let s1 : StepOut :=
    if !w.pd.shouldTerminate && payout_attempt.isEligible.isNone
        && conn.supportsPayoutEligibility w.pd.payouts.payoutType then
      check_payout_eligibility conn w
    else
      { err := none, w := w }
  s1.thenRun (fun w1 =>
    if !(payout_attempt.isEligible.getD env.payoutEligibility) then
      { err := some ApiError.payoutFailed, w := w1 }
    else
      { err := none, w := w1 })

/-- create_recipient (payouts.rs lines 1085-1220): when the connector-side
customer still has to be created, invoke the recipient operation. On
success, only when the response asks for a process-tracker follow-up:
insert the scheduler task, persist the connector-provided status (defaulted
to RequiresVendorAccountCreation) to the attempt and the payout, and set
should_terminate. On an error response return PayoutFailed with no storage
write. The connector-customer record update is a write to the customers
table, not to Payout or PayoutAttempt, and is elided. -/
def create_recipient (conn : Connector) (env : Env) (w : World) : StepOut :=
  if env.shouldCallRecipientCreateCustomer then
    let w := w.logCall ConnectorFlow.recipient
    match conn.recipientResponse with
    | Except.ok resp =>
        if resp.shouldAddNextStepToProcessTracker then
          let w := { w with events := w.events ++ [Event.insertProcessTracker] }
          let status := resp.status.getD PayoutStatus.requiresVendorAccountCreation
          let w := w.updatePayoutAttempt
            { connectorPayoutId := w.pd.payoutAttempt.connectorPayoutId
              status := status
              errorCode := none
              errorMessage := none
              isEligible := resp.payoutEligible }
          let w := w.updatePayoutStatus status
          { err := none, w := { w with pd := { w.pd with shouldTerminate := true } } }
        else
          { err := none, w := w }
    | Except.error _ => { err := some ApiError.payoutFailed, w := w }
  else
    { err := none, w := w }

/-- complete_create_recipient (payouts.rs lines 1053-1083): run
create_recipient only when the pass is not terminated, the attempt status is
creation-eligible and the connector supports recipient creation. -/
def complete_create_recipient (conn : Connector) (env : Env) (w : World) : StepOut :=
  if !w.pd.shouldTerminate && isCreationEligible w.pd.payoutAttempt.status
      && conn.supportsCreateRecipient w.pd.payouts.payoutType then
    create_recipient conn env w
  else
    { err := none, w := w }

/-- create_recipient_disburse_account (payouts.rs lines 1779-1862): invoke
the disbursement-account operation; on success persist the connector-provided
status (falling back to the current attempt status) to the attempt ONLY (the
source has no update_payout call in this function); on an error response
persist status Failed with code and message to the attempt only, and return
Ok either way. -/
def create_recipient_disburse_account (conn : Connector) (w : World) : StepOut :=
  let w := w.logCall ConnectorFlow.disburseAccount
  match conn.disburseResponse with
  | Except.ok resp =>
      let status := resp.status.getD w.pd.payoutAttempt.status
      let w := w.updatePayoutAttempt
        { connectorPayoutId := resp.connectorPayoutId
          status := status
          errorCode := none
          errorMessage := none
          isEligible := resp.payoutEligible }
      { err := none, w := w }
  | Except.error e =>
      let w := w.updatePayoutAttempt
        { connectorPayoutId := w.pd.payoutAttempt.connectorPayoutId
          status := PayoutStatus.failed
          errorCode := some e.code
          errorMessage := some e.message
          isEligible := none }
      { err := none, w := w }

/-- complete_create_recipient_disburse_account (payouts.rs lines 1752-1777):
run create_recipient_disburse_account only when the pass is not terminated,
the attempt status is exactly RequiresVendorAccountCreation and the
connector supports it. -/
def complete_create_recipient_disburse_account (conn : Connector) (w : World) : StepOut :=
  if !w.pd.shouldTerminate
      && w.pd.payoutAttempt.status = PayoutStatus.requiresVendorAccountCreation
      && conn.supportsVendorDisburseAccountCreateForPayout then
    create_recipient_disburse_account conn w
  else
    { err := none, w := w }

/-- create_payout (payouts.rs lines 1445-1569): acquire an access token
(external collaborator, elided), run the quote pretask when the connector
requires it (complete_payout_quote_steps_if_required, lines 1571-1607: its
outcome only feeds quote_id and is overwritten by the create response),
invoke the create operation; on success persist the status (connector-
provided, else unchanged) to both records and surface PayoutFailed when the
resulting status is error-classified; on an error response persist Failed
with code and message to both records and return Ok. -/
def create_payout (conn : Connector) (w : World) : StepOut :=
  let w := if conn.isPayoutQuoteCallRequired then w.logCall ConnectorFlow.quote else w
  let w := w.logCall ConnectorFlow.create
  match conn.createResponse with
  | Except.ok resp =>
      let status := resp.status.getD w.pd.payoutAttempt.status
      let w := w.updatePayoutAttempt
        { connectorPayoutId := resp.connectorPayoutId
          status := status
          errorCode := none
          errorMessage := none
          isEligible := resp.payoutEligible }
      let w := w.updatePayoutStatus status
      if is_payout_err_state status then
        { err := some ApiError.payoutFailed, w := w }
      else
        { err := none, w := w }
  | Except.error e =>
      let w := w.updatePayoutAttempt
        { connectorPayoutId := w.pd.payoutAttempt.connectorPayoutId
          status := PayoutStatus.failed
          errorCode := some e.code
          errorMessage := some e.message
          isEligible := none }
      let w := w.updatePayoutStatus PayoutStatus.failed
      { err := none, w := w }

/-- complete_create_payout (payouts.rs lines 1378-1443): only when the pass
is not terminated and the attempt status is creation-eligible; if the
connector supports instant payout for this payout type, skip the connector
call and persist RequiresFulfillment to the attempt and the payout locally;
otherwise run create_payout. -/
def complete_create_payout (conn : Connector) (w : World) : StepOut :=
  if !w.pd.shouldTerminate && isCreationEligible w.pd.payoutAttempt.status then
    if conn.supportsInstantPayout w.pd.payouts.payoutType then
      let w := w.updatePayoutAttempt
        { connectorPayoutId := w.pd.payoutAttempt.connectorPayoutId
          status := PayoutStatus.requiresFulfillment
          errorCode := none
          errorMessage := none
          isEligible := none }
      { err := none, w := w.updatePayoutStatus PayoutStatus.requiresFulfillment }
    else
      create_payout conn w
  else
    { err := none, w := w }

/-- fulfill_payout (payouts.rs lines 1969-2106): invoke the fulfill
operation; on success set the in-memory payout status first, for recurring
payouts with no stored method id require payout_method_data (propagating a
missing-field error before any write when absent; the locker save itself is
a collaborator and elided), then persist the status to both records and
surface PayoutFailed when it is error-classified; on an error response
persist Failed with code and message to both records. -/
def fulfill_payout (conn : Connector) (w : World) : StepOut :=
  let w := w.logCall ConnectorFlow.fulfill
  match conn.fulfillResponse with
  | Except.ok resp =>
      let status := resp.status.getD w.pd.payoutAttempt.status
      let w := { w with pd := { w.pd with payouts := { w.pd.payouts with status := status } } }
      if w.pd.payouts.recurring && w.pd.payouts.payoutMethodId.isNone
          && !is_payout_err_state status && w.pd.payoutMethodData.isNone then
        { err := some (ApiError.missingRequiredField "payout_method_data"), w := w }
      else
        let w := w.updatePayoutAttempt
          { connectorPayoutId := resp.connectorPayoutId
            status := status
            errorCode := none
            errorMessage := none
            isEligible := resp.payoutEligible }
        let w := w.updatePayoutStatus status
        if is_payout_err_state status then
          { err := some ApiError.payoutFailed, w := w }
        else
          { err := none, w := w }
  | Except.error e =>
      let w := w.updatePayoutAttempt
        { connectorPayoutId := w.pd.payoutAttempt.connectorPayoutId
          status := PayoutStatus.failed
          errorCode := some e.code
          errorMessage := some e.message
          isEligible := none }
      let w := w.updatePayoutStatus PayoutStatus.failed
      { err := none, w := w }

/-- cancel_payout (payouts.rs lines 1864-1967): invoke the cancel operation;
on success persist the status (connector-provided, else unchanged) to both
records; on an error response persist Failed with code and message to both
records; no error-state check in either branch. -/
def cancel_payout (conn : Connector) (w : World) : StepOut :=
  let w := w.logCall ConnectorFlow.cancel
  match conn.cancelResponse with
  | Except.ok resp =>
      let status := resp.status.getD w.pd.payoutAttempt.status
      let w := w.updatePayoutAttempt
        { connectorPayoutId := resp.connectorPayoutId
          status := status
          errorCode := none
          errorMessage := none
          isEligible := resp.payoutEligible }
      { err := none, w := w.updatePayoutStatus status }
  | Except.error e =>
      let w := w.updatePayoutAttempt
        { connectorPayoutId := w.pd.payoutAttempt.connectorPayoutId
          status := PayoutStatus.failed
          errorCode := some e.code
          errorMessage := some e.message
          isEligible := none }
      { err := none, w := w.updatePayoutStatus PayoutStatus.failed }

/-- update_retrieve_payout_tracker (payouts.rs lines 1688-1750): on a
successful sync response persist the status to both records (keeping the
response's error fields only when the status is error-classified); on an
error response mutate ONLY the in-memory attempt's error fields (the error
is shown in the sync response; nothing is persisted) and return Ok. -/
def update_retrieve_payout_tracker (conn : Connector) (w : World) : StepOut :=
  match conn.syncResponse with
  | Except.ok resp =>
      let status := resp.status.getD w.pd.payoutAttempt.status
      let upd : PayoutAttemptStatusUpdate :=
        if is_payout_err_state status then
          { connectorPayoutId := resp.connectorPayoutId
            status := status
            errorCode := resp.errorCode
            errorMessage := resp.errorMessage
            isEligible := resp.payoutEligible }
        else
          { connectorPayoutId := resp.connectorPayoutId
            status := status
            errorCode := none
            errorMessage := none
            isEligible := resp.payoutEligible }
      let w := w.updatePayoutAttempt upd
      { err := none, w := w.updatePayoutStatus status }
  | Except.error e =>
      { err := none
        w := { w with pd := { w.pd with payoutAttempt :=
          { w.pd.payoutAttempt with
            errorCode := some e.code
            errorMessage := some e.message } } } }

/-- The connector-name block of call_connector_payout (payouts.rs lines
960-979): when the attempt's recorded connector differs from the chosen
one, write the routing update. -/
def update_connector_name (conn : Connector) (w0 : World) : World :=
  if w0.pd.payoutAttempt.connector = some conn.connectorName then w0
  else w0.updateAttemptRouting conn.connectorName

/-- The payout-method-data block of call_connector_payout (payouts.rs lines
982-998): when the aggregate has no method data or the snapshot attempt has
no payout token, resolve method data (inline value, else the locker,
modelled from the spec) and fail with a missing-field error when it cannot
be resolved. -/
def resolve_payout_method_data (env : Env) (snapshotToken : Option String)
    (w : World) : StepOut :=
  if w.pd.payoutMethodData.isNone || snapshotToken.isNone then
    match w.pd.payoutMethodData.orElse (fun _ => env.lockerMethodData) with
    | none =>
        { err := some (ApiError.missingRequiredField "payout_method_data"), w := w }
    | some m =>
        { err := none, w := { w with pd := { w.pd with payoutMethodData := some m } } }
  else
    { err := none, w := w }

/-- call_connector_payout (payouts.rs lines 949-1051): one orchestration
pass against a chosen connector. Snapshots of the attempt and payout are
taken on entry; the connector-name and payout-method-data blocks run first;
then the eligibility, recipient, disbursement-account and creation sub-flows
run in order, and auto-fulfill runs when the snapshot's auto_fulfill is set
and the current attempt status is RequiresFulfillment (this last gate does
not consult should_terminate). -/
def call_connector_payout (conn : Connector) (env : Env) (w0 : World) : StepOut :=
  let payout_attempt := w0.pd.payoutAttempt
  let payouts := w0.pd.payouts
  let w1 := update_connector_name conn w0
  let s2 := resolve_payout_method_data env payout_attempt.payoutToken w1
  let s3 := s2.thenRun (complete_payout_eligibility conn env)
  let s4 := s3.thenRun (complete_create_recipient conn env)
  let s5 := s4.thenRun (complete_create_recipient_disburse_account conn)
  let s6 := s5.thenRun (complete_create_payout conn)
  s6.thenRun (fun w =>
    if payouts.autoFulfill && w.pd.payoutAttempt.status = PayoutStatus.requiresFulfillment then
      fulfill_payout conn w
    else
      { err := none, w := w })

/-- payouts_cancel_core (payouts.rs lines 528-620), after make_payout_data
has loaded the aggregate: reject terminal statuses with an invalid-request
error; for locally-cancellable statuses persist Cancelled (message
"Cancelled by user") to the attempt and then to the payout with no connector
call; otherwise trigger the connector's cancellation, failing with a
missing-field error when the attempt has no connector recorded. -/
def payouts_cancel_core (conn : Connector) (w : World) : StepOut :=
  let payout_attempt := w.pd.payoutAttempt
  if is_payout_terminal_state payout_attempt.status then
    { err := some ApiError.invalidRequest, w := w }
  else if is_eligible_for_local_payout_cancellation payout_attempt.status then
    let w := w.updatePayoutAttempt
      { connectorPayoutId := payout_attempt.connectorPayoutId
        status := PayoutStatus.cancelled
        errorCode := none
        errorMessage := some "Cancelled by user"
        isEligible := none }
    { err := none, w := w.updatePayoutStatus PayoutStatus.cancelled }
  else
    match payout_attempt.connector with
    | some _ => cancel_payout conn w
    | none => { err := some (ApiError.missingRequiredField "connector"), w := w }

/-- A payout create / confirm / update request (api payouts::PayoutCreateRequest),
restricted to the fields payouts.rs branches on. -/
structure PayoutCreateRequest where
  payoutId : Option String
  amount : Option Nat
  currency : Option String
  confirm : Option Bool
  autoFulfill : Option Bool
  recurring : Option Bool
  payoutType : Option PayoutType
  payoutMethodData : Option PayoutMethodData
  payoutToken : Option String
  connector : Option String
  deriving DecidableEq, Repr

/-- The statuses in which confirmation is not allowed
(payouts_confirm_core, payouts.rs lines 370-382). -/
def not_allowed_confirm_statuses : List PayoutStatus :=
  [PayoutStatus.cancelled, PayoutStatus.success, PayoutStatus.failed,
   PayoutStatus.pending, PayoutStatus.ineligible,
   PayoutStatus.requiresFulfillment, PayoutStatus.requiresVendorAccountCreation]

/-- Modelled from the spec: helpers::validate_payout_status_against_not_allowed_statuses
(payouts/helpers.rs, not under src) rejects the operation exactly when the
current status is in the not-allowed list. -/
def validate_payout_status_against_not_allowed_statuses
    (status : PayoutStatus) (not_allowed : List PayoutStatus) : Bool :=
  not_allowed.contains status

/-- Modelled from the spec: helpers::update_payouts_and_payout_attempt
(payouts/helpers.rs, not under src) applies the request's updatable fields
to the stored Payout (and attempt) records. -/
def update_payouts_and_payout_attempt (req : PayoutCreateRequest) (w : World) : World :=
  let p := { w.dbPayout with
    confirm := req.confirm
    amount := req.amount.getD w.dbPayout.amount
    autoFulfill := req.autoFulfill.getD w.dbPayout.autoFulfill
    recurring := req.recurring.getD w.dbPayout.recurring }
  { w with
    dbPayout := p
    pd := { w.pd with payouts := p }
    events := w.events ++ [Event.updateRecords] }

/-- payouts_confirm_core (payouts.rs lines 354-415), after make_payout_data:
validate the current attempt status against the not-allowed list (rejecting
with an invalid-request error before any write or connector call), then
apply the request's updates, mark the payout link submitted (payout-link
write elided) and run the pass. Routing resolution (payouts_core /
get_connector_choice) is modelled from the spec as a pre-determined single
connector. -/
def payouts_confirm_core (conn : Connector) (env : Env) (req : PayoutCreateRequest)
    (w : World) : StepOut :=
  if validate_payout_status_against_not_allowed_statuses
      w.pd.payoutAttempt.status not_allowed_confirm_statuses then
    { err := some ApiError.invalidRequest, w := w }
  else
    let w := update_payouts_and_payout_attempt req w
    call_connector_payout conn env w

/-- payouts_update_core (payouts.rs lines 417-481), after make_payout_data:
reject terminal or initiated statuses with an invalid-request error before
any write or connector call; otherwise apply the request's updates, clear
the attempt's in-memory connector choice unless the request omits a
connector while one is recorded, refresh the in-memory payout method data
from the request, and run the pass when confirm is true. -/
def payouts_update_core (conn : Connector) (env : Env) (req : PayoutCreateRequest)
    (w : World) : StepOut :=
  if is_payout_terminal_state w.pd.payoutAttempt.status
      || is_payout_initiated w.pd.payoutAttempt.status then
    { err := some ApiError.invalidRequest, w := w }
  else
    let w := update_payouts_and_payout_attempt req w
    let w :=
      if !(req.connector.isNone && w.pd.payoutAttempt.connector.isSome) then
        { w with pd := { w.pd with payoutAttempt :=
          { w.pd.payoutAttempt with connector := none } } }
      else w
    let pmd := req.payoutMethodData.orElse (fun _ => w.pd.payoutMethodData)
    let w := { w with pd := { w.pd with payoutMethodData := pmd } }
    if w.pd.payouts.confirm = some true then
      call_connector_payout conn env w
    else
      { err := none, w := w }

/-- payout_create_db_entries (payouts.rs lines 2193-2374), restricted to the
computation of the inserted Payout and PayoutAttempt records (customer,
address and payout-link handling are collaborator glue): the currency is
required; the status is RequiresCreation when method data is supplied
(inline, via token, or stored) and confirm is true, RequiresConfirmation
when method data is supplied and confirm is not true, and
RequiresPayoutMethodData when no method data is supplied; the source and
destination currencies are both the request's single currency; both records
are inserted with the same status and attempt_count starts at 1. -/
def payout_create_db_entries (req : PayoutCreateRequest) (payout_id : String)
    (stored_payout_method_data : Option PayoutMethodData) :
    Except ApiError (Payouts × PayoutAttempt) :=
  match req.currency with
  | none => Except.error (ApiError.missingRequiredField "currency")
  | some currency =>
    let status :=
      if req.payoutMethodData.isSome || req.payoutToken.isSome
          || stored_payout_method_data.isSome then
        match req.confirm with
        | some true => PayoutStatus.requiresCreation
        | _ => PayoutStatus.requiresConfirmation
      else
        PayoutStatus.requiresPayoutMethodData
    let payout_method_id :=
      if stored_payout_method_data.isSome then req.payoutToken else none
    let payouts : Payouts :=
      { payoutId := payout_id
        status := status
        amount := req.amount.getD 0
        sourceCurrency := currency
        destinationCurrency := currency
        payoutType := req.payoutType
        autoFulfill := req.autoFulfill.getD false
        recurring := req.recurring.getD false
        confirm := req.confirm
        payoutMethodId := payout_method_id
        attemptCount := 1 }
    let payout_attempt : PayoutAttempt :=
      { payoutAttemptId := payout_id ++ "_1"
        payoutId := payout_id
        status := status
        connector := none
        connectorPayoutId := ""
        errorCode := none
        errorMessage := none
        isEligible := none
        payoutToken := req.payoutToken
        profileId := "" }
    Except.ok (payouts, payout_attempt)

/-- payouts_create_core (payouts.rs lines 298-351): validate and create the
DB entries (validator::validate_create_request is not under src; the stored
payout method data it resolves from the payout token is a parameter),
resolve payout method data into the aggregate, and run the pass only when
the stored confirm flag is true. -/
def payouts_create_core (conn : Connector) (env : Env) (req : PayoutCreateRequest)
    (payout_id : String) (stored_payout_method_data : Option PayoutMethodData) :
    Except ApiError StepOut :=
  match payout_create_db_entries req payout_id stored_payout_method_data with
  | Except.error e => Except.error e
  | Except.ok (payouts, payout_attempt) =>
    let pd : PayoutData :=
      { payouts := payouts
        payoutAttempt := payout_attempt
        payoutMethodData :=
          (req.payoutMethodData.orElse (fun _ => stored_payout_method_data)).orElse
            (fun _ => env.lockerMethodData)
        shouldTerminate := false }
    let w : World :=
      { pd := pd
        dbPayout := payouts
        dbAttempt := payout_attempt
        events := [Event.insertPayout payouts.status, Event.insertAttempt payout_attempt.status] }
    if payouts.confirm = some true then
      Except.ok (call_connector_payout conn env w)
    else
      Except.ok { err := none, w := w }

/-- The external response shape (api::PayoutCreateResponse), restricted to
the fields whose provenance the verification tracks. -/
structure PayoutCreateResponse where
  payoutId : String
  amount : Nat
  currency : String
  connector : Option String
  autoFulfill : Bool
  recurring : Bool
  status : PayoutStatus
  errorMessage : Option String
  errorCode : Option String
  connectorTransactionId : String
  deriving DecidableEq, Repr

/-- response_handler (payouts.rs lines 2108-2189): project the aggregate
into the external response. Status, error message, error code, connector
and connector_transaction_id are taken from the attempt; amount, currency
(destination), auto_fulfill, recurring and payout id from the payout. -/
def response_handler (pd : PayoutData) : PayoutCreateResponse :=
  { payoutId := pd.payouts.payoutId
    amount := pd.payouts.amount
    currency := pd.payouts.destinationCurrency
    connector := pd.payoutAttempt.connector
    autoFulfill := pd.payouts.autoFulfill
    recurring := pd.payouts.recurring
    status := pd.payoutAttempt.status
    errorMessage := pd.payoutAttempt.errorMessage
    errorCode := pd.payoutAttempt.errorCode
    connectorTransactionId := pd.payoutAttempt.connectorPayoutId }

/-- Connector response used as a default for operations a scenario never
invokes. -/
def unusedResponse : Except ErrorResponse PayoutsResponseData :=
  Except.error { code := "unused", message := "unused" }

/-- Sample Payout record used by concrete scenarios. -/
def basePayouts : Payouts :=
  { payoutId := "po_1"
    status := PayoutStatus.requiresCreation
    amount := 1000
    sourceCurrency := "USD"
    destinationCurrency := "USD"
    payoutType := some PayoutType.bank
    autoFulfill := false
    recurring := false
    confirm := some true
    payoutMethodId := none
    attemptCount := 1 }

/-- Sample PayoutAttempt record used by concrete scenarios. -/
def baseAttempt : PayoutAttempt :=
  { payoutAttemptId := "po_1_1"
    payoutId := "po_1"
    status := PayoutStatus.requiresCreation
    connector := some "stripe"
    connectorPayoutId := ""
    errorCode := none
    errorMessage := none
    isEligible := none
    payoutToken := some "tok_1"
    profileId := "pr_1" }

/-- Sample aggregate used by concrete scenarios: freshly loaded, ready for
creation, with inline method data and a payout token. -/
def basePayoutData : PayoutData :=
  { payouts := basePayouts
    payoutAttempt := baseAttempt
    payoutMethodData := some (PayoutMethodData.bank "acct")
    shouldTerminate := false }

/-- Sample connector with no optional capabilities; every operation would
return an error response if invoked. -/
def baseConnector : Connector :=
  { connectorName := "stripe"
    supportsPayoutEligibility := fun _ => false
    supportsCreateRecipient := fun _ => false
    supportsVendorDisburseAccountCreateForPayout := false
    supportsInstantPayout := fun _ => false
    isPayoutQuoteCallRequired := false
    eligibilityResponse := unusedResponse
    recipientResponse := unusedResponse
    disburseResponse := unusedResponse
    createResponse := unusedResponse
    fulfillResponse := unusedResponse
    cancelResponse := unusedResponse
    syncResponse := unusedResponse }

/-- Sample environment: configured payout_eligibility default true, no
connector-side customer creation pending, nothing in the locker. -/
def baseEnv : Env :=
  { payoutEligibility := true
    shouldCallRecipientCreateCustomer := false
    lockerMethodData := none }

/-- Sample create request: inline bank method data, USD, no confirm flag. -/
def baseRequest : PayoutCreateRequest :=
  { payoutId := some "po_1"
    amount := some 1000
    currency := some "USD"
    confirm := none
    autoFulfill := none
    recurring := none
    payoutType := some PayoutType.bank
    payoutMethodData := some (PayoutMethodData.bank "acct")
    payoutToken := none
    connector := none }

/-- The Payout record that payout_create_db_entries builds from baseRequest. -/
def createdPayouts : Payouts :=
  { payoutId := "po_1"
    status := PayoutStatus.requiresConfirmation
    amount := 1000
    sourceCurrency := "USD"
    destinationCurrency := "USD"
    payoutType := some PayoutType.bank
    autoFulfill := false
    recurring := false
    confirm := none
    payoutMethodId := none
    attemptCount := 1 }

/-- The PayoutAttempt record that payout_create_db_entries builds from
baseRequest. -/
def createdAttempt : PayoutAttempt :=
  { payoutAttemptId := "po_1_1"
    payoutId := "po_1"
    status := PayoutStatus.requiresConfirmation
    connector := none
    connectorPayoutId := ""
    errorCode := none
    errorMessage := none
    isEligible := none
    payoutToken := none
    profileId := "" }

/-- The pass outcome that payouts_create_core produces from baseRequest
(no confirm, so no pass is run). -/
def createdStepOut : StepOut :=
  { err := none
    w :=
      { pd :=
          { payouts := createdPayouts
            payoutAttempt := createdAttempt
            payoutMethodData := some (PayoutMethodData.bank "acct")
            shouldTerminate := false }
        dbPayout := createdPayouts
        dbAttempt := createdAttempt
        events := [Event.insertPayout PayoutStatus.requiresConfirmation,
                   Event.insertAttempt PayoutStatus.requiresConfirmation] } }

/-- Connector variant supporting instant payout, used by the C5 witness. -/
def instantConnector : Connector :=
  { baseConnector with supportsInstantPayout := fun _ => true }

/-- Sample aggregate in a terminal state. -/
def terminalPayoutData : PayoutData :=
  { basePayoutData with payoutAttempt := { baseAttempt with status := PayoutStatus.success } }

/-- Sample aggregate awaiting vendor-account creation, both records in
RequiresVendorAccountCreation. -/
def vendorPayoutData : PayoutData :=
  { basePayoutData with
    payouts := { basePayouts with status := PayoutStatus.requiresVendorAccountCreation }
    payoutAttempt := { baseAttempt with status := PayoutStatus.requiresVendorAccountCreation } }

/-- Connector whose disbursement-account operation fails. -/
def disburseFailConnector : Connector :=
  { baseConnector with
    supportsVendorDisburseAccountCreateForPayout := true
    disburseResponse := Except.error { code := "E42", message := "account refused" } }

/-- Connector whose recipient creation asks for a process-tracker follow-up
while reporting status RequiresFulfillment, and whose fulfill operation
succeeds. -/
def recipientTerminateConnector : Connector :=
  { baseConnector with
    supportsCreateRecipient := fun _ => true
    recipientResponse := Except.ok
      { status := some PayoutStatus.requiresFulfillment
        connectorPayoutId := "rec_1"
        payoutEligible := none
        shouldAddNextStepToProcessTracker := true
        errorCode := none
        errorMessage := none }
    fulfillResponse := Except.ok
      { status := some PayoutStatus.success
        connectorPayoutId := "ful_1"
        payoutEligible := none
        shouldAddNextStepToProcessTracker := false
        errorCode := none
        errorMessage := none } }

/-- Environment in which the connector-side recipient still has to be
created. -/
def recipientEnv : Env :=
  { baseEnv with shouldCallRecipientCreateCustomer := true }

/-- Sample aggregate with auto_fulfill configured. -/
def autoFulfillPayoutData : PayoutData :=
  { basePayoutData with payouts := { basePayouts with autoFulfill := true } }

/-- Sample aggregate with should_terminate already set. -/
def terminatedPayoutData : PayoutData :=
  { basePayoutData with shouldTerminate := true }

/-- Connector used by the C2 counterexample: eligibility is supported and
returns payout_eligible = false with no status; the create operation is
reachable and succeeds. -/
def ineligibleConnector : Connector :=
  { baseConnector with
    supportsPayoutEligibility := fun _ => true
    eligibilityResponse := Except.ok
      { status := none
        connectorPayoutId := "elig_1"
        payoutEligible := some false
        shouldAddNextStepToProcessTracker := false
        errorCode := none
        errorMessage := none }
    createResponse := Except.ok
      { status := some PayoutStatus.requiresFulfillment
        connectorPayoutId := "create_1"
        payoutEligible := none
        shouldAddNextStepToProcessTracker := false
        errorCode := none
        errorMessage := none } }

/-- Sample aggregate whose stored attempt already carries
is_eligible = false from an earlier pass. -/
def ineligibleStoredPayoutData : PayoutData :=
  { basePayoutData with payoutAttempt := { baseAttempt with isEligible := some false } }

/-- Eligibility response carrying the error-classified status Ineligible. -/
def ineligibleStatusResponse : PayoutsResponseData :=
  { status := some PayoutStatus.ineligible
    connectorPayoutId := "elig_2"
    payoutEligible := some false
    shouldAddNextStepToProcessTracker := false
    errorCode := none
    errorMessage := none }

/-- Connector whose eligibility check reports status Ineligible. -/
def ineligibleStatusConnector : Connector :=
  { baseConnector with
    supportsPayoutEligibility := fun _ => true
    eligibilityResponse := Except.ok ineligibleStatusResponse }

/-- C9: payout_create_db_entries writes the request's single currency into
both source_currency and destination_currency, so every newly created
Payout has source_currency = destination_currency. -/
theorem C9_single_currency (req : PayoutCreateRequest) (payout_id : String)
    (stored : Option PayoutMethodData) (p : Payouts) (a : PayoutAttempt)
    (h : payout_create_db_entries req payout_id stored = Except.ok (p, a)) :
    p.sourceCurrency = p.destinationCurrency := by
  unfold payout_create_db_entries at h
  cases hc : req.currency with
  | none => simp [hc] at h
  | some c =>
      simp only [hc] at h
      cases h
      rfl

/-- Witness for C9 at the sample request. -/
theorem C9_single_currency_witness :
    createdPayouts.sourceCurrency = createdPayouts.destinationCurrency :=
  C9_single_currency baseRequest "po_1" none createdPayouts createdAttempt (by rfl)

/-- C10: response_handler takes status, error_message, error_code, connector
and connector_transaction_id from the current PayoutAttempt of the
aggregate, never from the Payout record; every core operation returns its
response through response_handler. -/
theorem C10_response_from_attempt (pd : PayoutData) :
    (response_handler pd).status = pd.payoutAttempt.status
    ∧ (response_handler pd).errorMessage = pd.payoutAttempt.errorMessage
    ∧ (response_handler pd).errorCode = pd.payoutAttempt.errorCode
    ∧ (response_handler pd).connector = pd.payoutAttempt.connector
    ∧ (response_handler pd).connectorTransactionId = pd.payoutAttempt.connectorPayoutId :=
  ⟨rfl, rfl, rfl, rfl, rfl⟩

/-- C4: when the request's confirm flag is not true, payouts_create_core
creates both records with status RequiresConfirmation when payout method
data is supplied (inline, via payout token, or stored) and
RequiresPayoutMethodData otherwise, and issues no connector call. -/
theorem C4_create_without_confirm (conn : Connector) (env : Env)
    (req : PayoutCreateRequest) (payout_id : String)
    (stored : Option PayoutMethodData) (r : StepOut)
    (h1 : req.confirm ≠ some true)
    (h2 : payouts_create_core conn env req payout_id stored = Except.ok r) :
    r.err = none
    ∧ (∀ f, Event.connectorCall f ∉ r.w.events)
    ∧ r.w.dbPayout.status =
        (if req.payoutMethodData.isSome || req.payoutToken.isSome || stored.isSome
         then PayoutStatus.requiresConfirmation
         else PayoutStatus.requiresPayoutMethodData)
    ∧ r.w.dbAttempt.status = r.w.dbPayout.status := by
  unfold payouts_create_core payout_create_db_entries at h2
  cases hc : req.currency with
  | none => simp [hc] at h2
  | some c =>
      have hcf : req.confirm = none ∨ req.confirm = some false := by
        cases hcfv : req.confirm with
        | none => exact Or.inl rfl
        | some b =>
            cases b with
            | false => exact Or.inr rfl
            | true => exact absurd hcfv h1
      rcases hcf with hcf | hcf <;>
        · simp [hc, hcf] at h2
          cases h2
          simp

/-- Witness for C4 at the sample request (confirm unset, inline method
data). -/
theorem C4_create_without_confirm_witness :
    createdStepOut.err = none
    ∧ (∀ f, Event.connectorCall f ∉ createdStepOut.w.events)
    ∧ createdStepOut.w.dbPayout.status =
        (if baseRequest.payoutMethodData.isSome || baseRequest.payoutToken.isSome
            || (none : Option PayoutMethodData).isSome
         then PayoutStatus.requiresConfirmation
         else PayoutStatus.requiresPayoutMethodData)
    ∧ createdStepOut.w.dbAttempt.status = createdStepOut.w.dbPayout.status :=
  C4_create_without_confirm baseConnector baseEnv baseRequest "po_1" none createdStepOut
    (by decide) (by rfl)

/-- C5: when the connector supports instant payout for the payout's type and
the attempt is in RequiresCreation (pass not terminated), the
payout-creation sub-flow issues no connector call and persists
RequiresFulfillment to both the attempt and the payout. -/
theorem C5_instant_payout_local_transition (conn : Connector) (pd : PayoutData)
    (h1 : pd.shouldTerminate = false)
    (h2 : pd.payoutAttempt.status = PayoutStatus.requiresCreation)
    (h3 : conn.supportsInstantPayout pd.payouts.payoutType = true) :
    (complete_create_payout conn (World.init pd)).err = none
    ∧ (complete_create_payout conn (World.init pd)).w.dbAttempt.status
        = PayoutStatus.requiresFulfillment
    ∧ (complete_create_payout conn (World.init pd)).w.dbPayout.status
        = PayoutStatus.requiresFulfillment
    ∧ ∀ f, Event.connectorCall f ∉ (complete_create_payout conn (World.init pd)).w.events := by
  simp [complete_create_payout, World.init, h1, h2, h3, isCreationEligible,
        World.updatePayoutAttempt, World.updatePayoutStatus, PayoutAttempt.applyStatusUpdate]

/-- Witness for C5 at the sample aggregate and an instant-capable
connector. -/
theorem C5_instant_payout_local_transition_witness :
    (complete_create_payout instantConnector (World.init basePayoutData)).err = none
    ∧ (complete_create_payout instantConnector (World.init basePayoutData)).w.dbAttempt.status
        = PayoutStatus.requiresFulfillment
    ∧ (complete_create_payout instantConnector (World.init basePayoutData)).w.dbPayout.status
        = PayoutStatus.requiresFulfillment
    ∧ ∀ f, Event.connectorCall f
        ∉ (complete_create_payout instantConnector (World.init basePayoutData)).w.events :=
  C5_instant_payout_local_transition instantConnector basePayoutData rfl rfl rfl

/-- C6: a cancel request for a payout in one of the pre-connector-call
states (RequiresCreation / RequiresConfirmation / RequiresPayoutMethodData,
i.e. the locally-cancellable states) persists Cancelled to both records
without any connector call; a cancel request for a payout in a terminal
state (Success / Failed / Cancelled / Ineligible) is rejected with an
invalid-request error and mutates nothing. -/
theorem C6_cancel_semantics (conn : Connector) (pd : PayoutData) :
    (is_eligible_for_local_payout_cancellation pd.payoutAttempt.status = true →
      (payouts_cancel_core conn (World.init pd)).err = none
      ∧ (payouts_cancel_core conn (World.init pd)).w.dbAttempt.status = PayoutStatus.cancelled
      ∧ (payouts_cancel_core conn (World.init pd)).w.dbPayout.status = PayoutStatus.cancelled
      ∧ ∀ f, Event.connectorCall f ∉ (payouts_cancel_core conn (World.init pd)).w.events)
    ∧ (is_payout_terminal_state pd.payoutAttempt.status = true →
      (payouts_cancel_core conn (World.init pd)).err = some ApiError.invalidRequest
      ∧ (payouts_cancel_core conn (World.init pd)).w = World.init pd) := by
  constructor
  · intro h
    cases hs : pd.payoutAttempt.status <;>
      simp [hs, is_eligible_for_local_payout_cancellation] at h <;>
      simp [payouts_cancel_core, World.init, hs, is_payout_terminal_state,
            is_eligible_for_local_payout_cancellation, World.updatePayoutAttempt,
            World.updatePayoutStatus, PayoutAttempt.applyStatusUpdate]
  · intro h
    cases hs : pd.payoutAttempt.status <;>
      simp [hs, is_payout_terminal_state] at h <;>
      simp [payouts_cancel_core, World.init, hs, is_payout_terminal_state]

/-- Witness for C6: local cancellation from RequiresCreation and rejection
from Success. -/
theorem C6_cancel_semantics_witness :
    ((payouts_cancel_core baseConnector (World.init basePayoutData)).err = none
      ∧ (payouts_cancel_core baseConnector (World.init basePayoutData)).w.dbAttempt.status
          = PayoutStatus.cancelled)
    ∧ (payouts_cancel_core baseConnector (World.init terminalPayoutData)).err
        = some ApiError.invalidRequest :=
  ⟨⟨((C6_cancel_semantics baseConnector basePayoutData).1 (by decide)).1,
    ((C6_cancel_semantics baseConnector basePayoutData).1 (by decide)).2.1⟩,
   ((C6_cancel_semantics baseConnector terminalPayoutData).2 (by decide)).1⟩

/-- C8: a confirm or update request for a payout whose current attempt is in
a terminal status (Success / Failed / Cancelled) is rejected with a
validation error before any connector call, leaving the stored records and
the event trace untouched. -/
theorem C8_terminal_confirm_update_rejected (conn : Connector) (env : Env)
    (req : PayoutCreateRequest) (pd : PayoutData)
    (h : pd.payoutAttempt.status = PayoutStatus.success
       ∨ pd.payoutAttempt.status = PayoutStatus.failed
       ∨ pd.payoutAttempt.status = PayoutStatus.cancelled) :
    (payouts_confirm_core conn env req (World.init pd)).err = some ApiError.invalidRequest
    ∧ (payouts_confirm_core conn env req (World.init pd)).w = World.init pd
    ∧ (payouts_update_core conn env req (World.init pd)).err = some ApiError.invalidRequest
    ∧ (payouts_update_core conn env req (World.init pd)).w = World.init pd := by
  rcases h with h | h | h <;>
    simp [payouts_confirm_core, payouts_update_core, World.init, h,
          validate_payout_status_against_not_allowed_statuses,
          not_allowed_confirm_statuses, is_payout_terminal_state, is_payout_initiated]

/-- Witness for C8 at the sample terminal aggregate. -/
theorem C8_terminal_confirm_update_rejected_witness :
    (payouts_confirm_core baseConnector baseEnv baseRequest
        (World.init terminalPayoutData)).err = some ApiError.invalidRequest
    ∧ (payouts_confirm_core baseConnector baseEnv baseRequest
        (World.init terminalPayoutData)).w = World.init terminalPayoutData
    ∧ (payouts_update_core baseConnector baseEnv baseRequest
        (World.init terminalPayoutData)).err = some ApiError.invalidRequest
    ∧ (payouts_update_core baseConnector baseEnv baseRequest
        (World.init terminalPayoutData)).w = World.init terminalPayoutData :=
  C8_terminal_confirm_update_rejected baseConnector baseEnv baseRequest terminalPayoutData
    (Or.inl (by decide))

/-- C1 counterexample: the disbursement-account sub-flow, on a connector
failure, persists Failed to the PayoutAttempt but never writes the Payout
(create_recipient_disburse_account has no update_payout call), so after the
sub-flow completes the persisted statuses disagree. -/
theorem C1_counterexample :
    (create_recipient_disburse_account disburseFailConnector
        (World.init vendorPayoutData)).err = none
    ∧ (create_recipient_disburse_account disburseFailConnector
        (World.init vendorPayoutData)).w.dbAttempt.status = PayoutStatus.failed
    ∧ (create_recipient_disburse_account disburseFailConnector
        (World.init vendorPayoutData)).w.dbPayout.status
        = PayoutStatus.requiresVendorAccountCreation
    ∧ ¬ (create_recipient_disburse_account disburseFailConnector
          (World.init vendorPayoutData)).w.dbAttempt.status
        = (create_recipient_disburse_account disburseFailConnector
          (World.init vendorPayoutData)).w.dbPayout.status := by
  decide

/-- C1 (amended): the eligibility, payout-creation, cancellation and
fulfillment sub-flows always leave the persisted PayoutAttempt.status equal
to the persisted Payout.status (both are written with the same status in
every branch, or neither is written when fulfillment aborts before its
writes); the disbursement-account sub-flow is the exception, updating only
the attempt, and recipient creation writes both (equal) only in its
process-tracker branch. -/
theorem C1_attempt_payout_status_consistency (conn : Connector) (pd : PayoutData)
    (h : pd.payouts.status = pd.payoutAttempt.status) :
    ((check_payout_eligibility conn (World.init pd)).w.dbAttempt.status
       = (check_payout_eligibility conn (World.init pd)).w.dbPayout.status)
    ∧ ((create_payout conn (World.init pd)).w.dbAttempt.status
       = (create_payout conn (World.init pd)).w.dbPayout.status)
    ∧ ((cancel_payout conn (World.init pd)).w.dbAttempt.status
       = (cancel_payout conn (World.init pd)).w.dbPayout.status)
    ∧ ((fulfill_payout conn (World.init pd)).w.dbAttempt.status
       = (fulfill_payout conn (World.init pd)).w.dbPayout.status) := by
  refine ⟨?_, ?_, ?_, ?_⟩
  · cases he : conn.eligibilityResponse <;>
      simp only [check_payout_eligibility, he] <;>
      (try split) <;> (try split) <;>
      simp [World.init, World.logCall, World.updatePayoutAttempt,
            World.updatePayoutStatus, PayoutAttempt.applyStatusUpdate]
  · cases he : conn.createResponse <;>
      simp only [create_payout, he] <;>
      (try split) <;> (try split) <;>
      simp [World.init, World.logCall, World.updatePayoutAttempt,
            World.updatePayoutStatus, PayoutAttempt.applyStatusUpdate]
  · cases he : conn.cancelResponse <;>
      simp only [cancel_payout, he] <;>
      (try split) <;> (try split) <;>
      simp [World.init, World.logCall, World.updatePayoutAttempt,
            World.updatePayoutStatus, PayoutAttempt.applyStatusUpdate]
  · cases he : conn.fulfillResponse <;>
      simp only [fulfill_payout, he] <;>
      (try split) <;> (try split) <;>
      simp [World.init, World.logCall, World.updatePayoutAttempt,
            World.updatePayoutStatus, PayoutAttempt.applyStatusUpdate, h]

/-- Witness for C1 (amended) at the sample aggregate and connector. -/
theorem C1_attempt_payout_status_consistency_witness :
    ((check_payout_eligibility baseConnector (World.init basePayoutData)).w.dbAttempt.status
       = (check_payout_eligibility baseConnector (World.init basePayoutData)).w.dbPayout.status)
    ∧ ((create_payout baseConnector (World.init basePayoutData)).w.dbAttempt.status
       = (create_payout baseConnector (World.init basePayoutData)).w.dbPayout.status)
    ∧ ((cancel_payout baseConnector (World.init basePayoutData)).w.dbAttempt.status
       = (cancel_payout baseConnector (World.init basePayoutData)).w.dbPayout.status)
    ∧ ((fulfill_payout baseConnector (World.init basePayoutData)).w.dbAttempt.status
       = (fulfill_payout baseConnector (World.init basePayoutData)).w.dbPayout.status) :=
  C1_attempt_payout_status_consistency baseConnector basePayoutData rfl

/-- C7 counterexample: recipient creation sets should_terminate and persists
the connector-reported status RequiresFulfillment; the auto-fulfill gate of
call_connector_payout checks only auto_fulfill and the attempt status, not
should_terminate, so the fulfill sub-flow still issues a connector call and
a state transition in the same pass. -/
theorem C7_counterexample :
    (call_connector_payout recipientTerminateConnector recipientEnv
        (World.init autoFulfillPayoutData)).w.pd.shouldTerminate = true
    ∧ Event.insertProcessTracker
        ∈ (call_connector_payout recipientTerminateConnector recipientEnv
            (World.init autoFulfillPayoutData)).w.events
    ∧ Event.connectorCall ConnectorFlow.fulfill
        ∈ (call_connector_payout recipientTerminateConnector recipientEnv
            (World.init autoFulfillPayoutData)).w.events
    ∧ (call_connector_payout recipientTerminateConnector recipientEnv
        (World.init autoFulfillPayoutData)).w.dbAttempt.status = PayoutStatus.success := by
  decide

/-- C7 (amended): once should_terminate is set, the recipient,
disbursement-account and payout-creation sub-flows perform no connector call
and no state transition in the same pass; the auto-fulfill step, however, is
gated only on auto_fulfill and on the attempt status being
RequiresFulfillment, so it can still run after should_terminate was set. -/
theorem C7_should_terminate_gates (conn : Connector) (env : Env) (pd : PayoutData)
    (h : pd.shouldTerminate = true) :
    complete_create_recipient conn env (World.init pd)
      = { err := none, w := World.init pd }
    ∧ complete_create_recipient_disburse_account conn (World.init pd)
      = { err := none, w := World.init pd }
    ∧ complete_create_payout conn (World.init pd)
      = { err := none, w := World.init pd } := by
  refine ⟨?_, ?_, ?_⟩ <;>
    simp [complete_create_recipient, complete_create_recipient_disburse_account,
          complete_create_payout, World.init, h]

/-- Witness for C7 (amended) at the sample aggregate. -/
theorem C7_should_terminate_gates_witness :
    complete_create_recipient baseConnector baseEnv (World.init terminatedPayoutData)
      = { err := none, w := World.init terminatedPayoutData }
    ∧ complete_create_recipient_disburse_account baseConnector (World.init terminatedPayoutData)
      = { err := none, w := World.init terminatedPayoutData }
    ∧ complete_create_payout baseConnector (World.init terminatedPayoutData)
      = { err := none, w := World.init terminatedPayoutData } :=
  C7_should_terminate_gates baseConnector baseEnv terminatedPayoutData rfl

/-- C3 counterexample: the recipient-creation sub-flow, on a connector error
response, returns a PayoutFailed error having performed no storage write at
all: the only event is the connector call, and both persisted records are
unchanged (no Failed status, no error code or message is persisted). -/
theorem C3_counterexample :
    (create_recipient baseConnector recipientEnv (World.init basePayoutData)).err
      = some ApiError.payoutFailed
    ∧ (create_recipient baseConnector recipientEnv (World.init basePayoutData)).w.events
      = [Event.connectorCall ConnectorFlow.recipient]
    ∧ (create_recipient baseConnector recipientEnv (World.init basePayoutData)).w.dbAttempt
      = basePayoutData.payoutAttempt
    ∧ (create_recipient baseConnector recipientEnv (World.init basePayoutData)).w.dbPayout
      = basePayoutData.payouts := by
  decide

/-- C3 (amended): on a connector error response, the eligibility,
payout-creation, cancellation and fulfillment sub-flows persist status
Failed with the connector's error code and message on the PayoutAttempt and
status Failed on the Payout before returning; the disbursement-account
sub-flow persists Failed with code and message on the attempt only, leaving
the Payout untouched; recipient creation returns the failure without
persisting anything; and the retrieval tracker records the error only on the
in-memory attempt, with no storage write. -/
theorem C3_connector_failure_persistence (conn : Connector) (env : Env)
    (pd : PayoutData) (e : ErrorResponse) :
    (conn.eligibilityResponse = Except.error e →
      (check_payout_eligibility conn (World.init pd)).w.dbAttempt.status = PayoutStatus.failed
      ∧ (check_payout_eligibility conn (World.init pd)).w.dbAttempt.errorCode = some e.code
      ∧ (check_payout_eligibility conn (World.init pd)).w.dbAttempt.errorMessage = some e.message
      ∧ (check_payout_eligibility conn (World.init pd)).w.dbPayout.status = PayoutStatus.failed)
    ∧ (conn.createResponse = Except.error e →
      (create_payout conn (World.init pd)).w.dbAttempt.status = PayoutStatus.failed
      ∧ (create_payout conn (World.init pd)).w.dbAttempt.errorCode = some e.code
      ∧ (create_payout conn (World.init pd)).w.dbAttempt.errorMessage = some e.message
      ∧ (create_payout conn (World.init pd)).w.dbPayout.status = PayoutStatus.failed)
    ∧ (conn.cancelResponse = Except.error e →
      (cancel_payout conn (World.init pd)).w.dbAttempt.status = PayoutStatus.failed
      ∧ (cancel_payout conn (World.init pd)).w.dbAttempt.errorCode = some e.code
      ∧ (cancel_payout conn (World.init pd)).w.dbAttempt.errorMessage = some e.message
      ∧ (cancel_payout conn (World.init pd)).w.dbPayout.status = PayoutStatus.failed)
    ∧ (conn.fulfillResponse = Except.error e →
      (fulfill_payout conn (World.init pd)).w.dbAttempt.status = PayoutStatus.failed
      ∧ (fulfill_payout conn (World.init pd)).w.dbAttempt.errorCode = some e.code
      ∧ (fulfill_payout conn (World.init pd)).w.dbAttempt.errorMessage = some e.message
      ∧ (fulfill_payout conn (World.init pd)).w.dbPayout.status = PayoutStatus.failed)
    ∧ (conn.disburseResponse = Except.error e →
      (create_recipient_disburse_account conn (World.init pd)).w.dbAttempt.status
        = PayoutStatus.failed
      ∧ (create_recipient_disburse_account conn (World.init pd)).w.dbAttempt.errorCode
        = some e.code
      ∧ (create_recipient_disburse_account conn (World.init pd)).w.dbAttempt.errorMessage
        = some e.message
      ∧ (create_recipient_disburse_account conn (World.init pd)).w.dbPayout = pd.payouts)
    ∧ (conn.recipientResponse = Except.error e →
        env.shouldCallRecipientCreateCustomer = true →
      (create_recipient conn env (World.init pd)).err = some ApiError.payoutFailed
      ∧ (create_recipient conn env (World.init pd)).w.dbAttempt = pd.payoutAttempt
      ∧ (create_recipient conn env (World.init pd)).w.dbPayout = pd.payouts)
    ∧ (conn.syncResponse = Except.error e →
      (update_retrieve_payout_tracker conn (World.init pd)).w.events = []
      ∧ (update_retrieve_payout_tracker conn (World.init pd)).w.dbAttempt
        = pd.payoutAttempt) := by
  refine ⟨?_, ?_, ?_, ?_, ?_, ?_, ?_⟩
  · intro he
    simp [check_payout_eligibility, he, World.init, World.logCall,
          World.updatePayoutAttempt, World.updatePayoutStatus,
          PayoutAttempt.applyStatusUpdate]
  · intro he
    simp only [create_payout, he]
    split <;>
      simp [World.init, World.logCall, World.updatePayoutAttempt,
            World.updatePayoutStatus, PayoutAttempt.applyStatusUpdate]
  · intro he
    simp [cancel_payout, he, World.init, World.logCall,
          World.updatePayoutAttempt, World.updatePayoutStatus,
          PayoutAttempt.applyStatusUpdate]
  · intro he
    simp [fulfill_payout, he, World.init, World.logCall,
          World.updatePayoutAttempt, World.updatePayoutStatus,
          PayoutAttempt.applyStatusUpdate]
  · intro he
    simp [create_recipient_disburse_account, he, World.init, World.logCall,
          World.updatePayoutAttempt, World.updatePayoutStatus,
          PayoutAttempt.applyStatusUpdate]
  · intro he hs
    simp [create_recipient, he, hs, World.init, World.logCall]
  · intro he
    simp [update_retrieve_payout_tracker, he, World.init]

/-- Witness for C3 (amended): the eligibility conjunct and the
recipient-creation conjunct at the sample inputs. -/
theorem C3_connector_failure_persistence_witness :
    ((check_payout_eligibility baseConnector (World.init basePayoutData)).w.dbAttempt.status
      = PayoutStatus.failed)
    ∧ (create_recipient baseConnector recipientEnv (World.init basePayoutData)).err
      = some ApiError.payoutFailed :=
  ⟨((C3_connector_failure_persistence baseConnector recipientEnv basePayoutData
      { code := "unused", message := "unused" }).1 (by rfl)).1,
   (((C3_connector_failure_persistence baseConnector recipientEnv basePayoutData
      { code := "unused", message := "unused" }).2.2.2.2.2.1) (by rfl) (by rfl)).1⟩

/-- The connector-name block never adds connector-call events and preserves
every aggregate field the later gates consult. -/
theorem update_connector_name_preserves (conn : Connector) (w : World)
    (hsync : w.dbAttempt = w.pd.payoutAttempt) :
    (update_connector_name conn w).pd.payoutAttempt.isEligible
      = w.pd.payoutAttempt.isEligible
    ∧ (update_connector_name conn w).pd.payouts = w.pd.payouts
    ∧ (update_connector_name conn w).pd.shouldTerminate = w.pd.shouldTerminate
    ∧ (update_connector_name conn w).pd.payoutMethodData = w.pd.payoutMethodData
    ∧ ∀ f, (Event.connectorCall f ∈ (update_connector_name conn w).events
          ↔ Event.connectorCall f ∈ w.events) := by
  unfold update_connector_name
  split <;> simp [World.updateAttemptRouting, hsync]

/-- The payout-method-data block never writes storage, never logs a
connector call and never touches the records or the termination flag. -/
theorem resolve_payout_method_data_preserves (env : Env) (t : Option String) (w : World) :
    (resolve_payout_method_data env t w).w.events = w.events
    ∧ (resolve_payout_method_data env t w).w.pd.payoutAttempt = w.pd.payoutAttempt
    ∧ (resolve_payout_method_data env t w).w.pd.payouts = w.pd.payouts
    ∧ (resolve_payout_method_data env t w).w.pd.shouldTerminate = w.pd.shouldTerminate
    ∧ (resolve_payout_method_data env t w).w.dbAttempt = w.dbAttempt
    ∧ (resolve_payout_method_data env t w).w.dbPayout = w.dbPayout := by
  unfold resolve_payout_method_data
  split
  · cases hm : w.pd.payoutMethodData.orElse (fun _ => env.lockerMethodData) <;> simp [hm]
  · simp

/-- The payout-method-data block succeeds whenever the aggregate already
carries method data. -/
theorem resolve_payout_method_data_ok (env : Env) (t : Option String) (w : World)
    (m : PayoutMethodData) (hm : w.pd.payoutMethodData = some m) :
    (resolve_payout_method_data env t w).err = none := by
  unfold resolve_payout_method_data
  split
  · simp [hm, Option.orElse]
  · rfl

/-- When the snapshot is_eligible is already false, the eligibility gate
fails the pass without running the connector check. -/
theorem complete_payout_eligibility_of_ineligible_snapshot (conn : Connector)
    (env : Env) (w : World) (h : w.pd.payoutAttempt.isEligible = some false) :
    complete_payout_eligibility conn env w = { err := some ApiError.payoutFailed, w := w } := by
  simp [complete_payout_eligibility, h, StepOut.thenRun]

/-- When the connector's eligibility response carries an error-classified
status, check_payout_eligibility persists it to both records and fails the
sub-flow with PayoutFailed. -/
theorem complete_payout_eligibility_of_err_status (conn : Connector) (env : Env)
    (w : World) (resp : PayoutsResponseData) (s : PayoutStatus)
    (h1 : w.pd.shouldTerminate = false)
    (h2 : w.pd.payoutAttempt.isEligible = none)
    (h3 : conn.supportsPayoutEligibility w.pd.payouts.payoutType = true)
    (h4 : conn.eligibilityResponse = Except.ok resp)
    (h5 : resp.status = some s)
    (h6 : is_payout_err_state s = true) :
    complete_payout_eligibility conn env w =
      { err := some ApiError.payoutFailed
        w := ((w.logCall ConnectorFlow.eligibility).updatePayoutAttempt
          { connectorPayoutId := resp.connectorPayoutId
            status := s
            errorCode := none
            errorMessage := none
            isEligible := resp.payoutEligible }).updatePayoutStatus s } := by
  simp [complete_payout_eligibility, check_payout_eligibility, h1, h2, h3, h4, h5, h6,
        StepOut.thenRun, World.logCall]

/-- C2 counterexample: the connector's eligibility check returns
payout_eligible = false (with no status), yet the pass does not end in an
error-classified status and the payout-creation sub-flow still runs (a
create connector call occurs): the eligibility gate reads the attempt
snapshot taken before the connector call, whose is_eligible is still unset,
and falls back to the configured default (true). -/
theorem C2_counterexample :
    (call_connector_payout ineligibleConnector baseEnv (World.init basePayoutData)).err = none
    ∧ Event.connectorCall ConnectorFlow.create
        ∈ (call_connector_payout ineligibleConnector baseEnv
            (World.init basePayoutData)).w.events
    ∧ is_payout_err_state
        (call_connector_payout ineligibleConnector baseEnv
          (World.init basePayoutData)).w.dbAttempt.status = false
    ∧ is_payout_err_state
        (call_connector_payout ineligibleConnector baseEnv
          (World.init basePayoutData)).w.dbPayout.status = false
    ∧ ineligibleConnector.eligibilityResponse.map (fun r => r.payoutEligible)
        = Except.ok (some false) :=
  ⟨by decide, by decide, by decide, by decide, rfl⟩

/-- C2 (amended): an in-pass payout_eligible = false flag alone does not
stop the pass (see the counterexample: the gate reads the pre-call snapshot
and falls back to the configured default). What does hold: (1) when the
attempt's stored is_eligible is already false at the start of the pass, the
pass fails before any connector call; (2) when the eligibility response
carries an error-classified status, that status is persisted to both records
and no later sub-flow issues a connector call in the same pass. -/
theorem C2_eligibility_gate (conn : Connector) (env : Env) (pd : PayoutData) :
    (pd.payoutAttempt.isEligible = some false →
      (call_connector_payout conn env (World.init pd)).err.isSome = true
      ∧ ∀ f, Event.connectorCall f
          ∉ (call_connector_payout conn env (World.init pd)).w.events)
    ∧ (∀ resp s m,
        pd.shouldTerminate = false →
        pd.payoutAttempt.isEligible = none →
        conn.supportsPayoutEligibility pd.payouts.payoutType = true →
        conn.eligibilityResponse = Except.ok resp →
        resp.status = some s →
        is_payout_err_state s = true →
        pd.payoutMethodData = some m →
        (call_connector_payout conn env (World.init pd)).err = some ApiError.payoutFailed
        ∧ (call_connector_payout conn env (World.init pd)).w.dbAttempt.status = s
        ∧ (call_connector_payout conn env (World.init pd)).w.dbPayout.status = s
        ∧ ∀ f, f ≠ ConnectorFlow.eligibility →
            Event.connectorCall f
              ∉ (call_connector_payout conn env (World.init pd)).w.events) := by
  have hu := update_connector_name_preserves conn (World.init pd) rfl
  constructor
  · intro h
    cases hs2 : resolve_payout_method_data env (World.init pd).pd.payoutAttempt.payoutToken
        (update_connector_name conn (World.init pd)) with
    | mk err2 w2 =>
      have hr := resolve_payout_method_data_preserves env
        (World.init pd).pd.payoutAttempt.payoutToken
        (update_connector_name conn (World.init pd))
      rw [hs2] at hr
      have hev : w2.events = (update_connector_name conn (World.init pd)).events := hr.1
      have hnocall : ∀ f, Event.connectorCall f ∉ w2.events := by
        intro f hf
        rw [hev] at hf
        exact absurd ((hu.2.2.2.2 f).mp hf) (by simp [World.init])
      cases err2 with
      | some e =>
          simp only [call_connector_payout, hs2, StepOut.thenRun]
          exact ⟨rfl, hnocall⟩
      | none =>
          have hie : w2.pd.payoutAttempt.isEligible = some false := by
            have h2 : w2.pd.payoutAttempt
                = (update_connector_name conn (World.init pd)).pd.payoutAttempt := hr.2.1
            rw [h2, hu.1]
            exact h
          simp only [call_connector_payout, hs2, StepOut.thenRun,
                     complete_payout_eligibility_of_ineligible_snapshot conn env w2 hie]
          exact ⟨rfl, hnocall⟩
  · intro resp s m hst hie hsup hresp hrs herr hpmd
    cases hs2 : resolve_payout_method_data env (World.init pd).pd.payoutAttempt.payoutToken
        (update_connector_name conn (World.init pd)) with
    | mk err2 w2 =>
      have hr := resolve_payout_method_data_preserves env
        (World.init pd).pd.payoutAttempt.payoutToken
        (update_connector_name conn (World.init pd))
      rw [hs2] at hr
      have hok := resolve_payout_method_data_ok env
        (World.init pd).pd.payoutAttempt.payoutToken
        (update_connector_name conn (World.init pd)) m (by rw [hu.2.2.2.1]; exact hpmd)
      rw [hs2] at hok
      have hev : w2.events = (update_connector_name conn (World.init pd)).events := hr.1
      cases err2 with
      | some e => exact absurd hok (by simp)
      | none =>
          have hatt : w2.pd.payoutAttempt
              = (update_connector_name conn (World.init pd)).pd.payoutAttempt := hr.2.1
          have hie2 : w2.pd.payoutAttempt.isEligible = none := by
            rw [hatt, hu.1]; exact hie
          have hst2 : w2.pd.shouldTerminate = false := by
            have h4 : w2.pd.shouldTerminate
                = (update_connector_name conn (World.init pd)).pd.shouldTerminate := hr.2.2.2.1
            rw [h4, hu.2.2.1]; exact hst
          have hsup2 : conn.supportsPayoutEligibility w2.pd.payouts.payoutType = true := by
            have h3 : w2.pd.payouts
                = (update_connector_name conn (World.init pd)).pd.payouts := hr.2.2.1
            rw [h3, hu.2.1]; exact hsup
          simp only [call_connector_payout, hs2, StepOut.thenRun,
                     complete_payout_eligibility_of_err_status conn env w2 resp s
                       hst2 hie2 hsup2 hresp hrs herr]
          refine ⟨by trivial, ?_, ?_, ?_⟩
          · simp [World.updatePayoutAttempt, World.updatePayoutStatus, World.logCall,
                  PayoutAttempt.applyStatusUpdate]
          · simp [World.updatePayoutAttempt, World.updatePayoutStatus, World.logCall,
                  PayoutAttempt.applyStatusUpdate]
          · intro f hfne hmem
            simp only [World.updatePayoutAttempt, World.updatePayoutStatus, World.logCall,
                       PayoutAttempt.applyStatusUpdate, List.append_assoc, List.mem_append,
                       List.mem_cons, List.mem_singleton, List.not_mem_nil] at hmem
            rcases hmem with hmem | hmem
            · exact absurd hmem (by
                intro hx
                rw [hev] at hx
                exact absurd ((hu.2.2.2.2 f).mp hx) (by simp [World.init]))
            · simp at hmem
              rcases hmem with hmem | hmem | hmem <;> simp_all

/-- Witness for C2 (amended): part (1) at a stored-ineligible aggregate and
part (2) at a connector returning status Ineligible. -/
theorem C2_eligibility_gate_witness :
    ((call_connector_payout baseConnector baseEnv
        (World.init ineligibleStoredPayoutData)).err.isSome = true)
    ∧ ((call_connector_payout ineligibleStatusConnector baseEnv
        (World.init basePayoutData)).err = some ApiError.payoutFailed)
    ∧ ((call_connector_payout ineligibleStatusConnector baseEnv
        (World.init basePayoutData)).w.dbAttempt.status = PayoutStatus.ineligible)
    ∧ ((call_connector_payout ineligibleStatusConnector baseEnv
        (World.init basePayoutData)).w.dbPayout.status = PayoutStatus.ineligible) :=
  ⟨((C2_eligibility_gate baseConnector baseEnv ineligibleStoredPayoutData).1 (by decide)).1,
   ((C2_eligibility_gate ineligibleStatusConnector baseEnv basePayoutData).2
      ineligibleStatusResponse PayoutStatus.ineligible (PayoutMethodData.bank "acct")
      (by decide) (by decide) (by decide) (by rfl) (by decide) (by decide) (by decide)).1,
   ((C2_eligibility_gate ineligibleStatusConnector baseEnv basePayoutData).2
      ineligibleStatusResponse PayoutStatus.ineligible (PayoutMethodData.bank "acct")
      (by decide) (by decide) (by decide) (by rfl) (by decide) (by decide) (by decide)).2.1,
   ((C2_eligibility_gate ineligibleStatusConnector baseEnv basePayoutData).2
      ineligibleStatusResponse PayoutStatus.ineligible (PayoutMethodData.bank "acct")
      (by decide) (by decide) (by decide) (by rfl) (by decide) (by decide) (by decide)).2.2.1⟩

end Hyperswitch
